/-
  Verification of the Smart Study Companion summarization backend.

  The repository is a Flask app (`src/app.py`) whose `/api/v1/summarize`
  endpoint delegates to `TextSummarizer` (`src/models/summarizer.py`).
  The summarizer validates the input, branches on text length between a
  direct chat-completion call and a chunk-and-combine pipeline, and
  packages the returned summary into a result dictionary.

  This file is a shallow embedding of that code. Python strings are
  Lean `String`, with the string methods the code uses (`strip`,
  `split`, `join`, `endswith`, slicing, `in`) modelled as structural
  functions on the character list; whitespace is the ASCII whitespace
  that `Char.isWhitespace` recognises. Python ints are `Int`; the float
  produced by `round(x, 2)` is modelled as an exact rational rounded
  half-to-even, which is `round`'s tie rule. Exceptions are an explicit
  error type threaded through `Except`. The external OpenAI / LangChain
  calls are not code of this repository: each is a parameter
  `String → ApiOutcome` giving the outcome of one external call, so the
  theorems quantify over every possible behaviour of the provider.
-/
import Mathlib

namespace StudyCompanion

/-! ### Python string primitives -/

/-- Python `c in s` for a single character `c`. -/
def pyInStr (c : Char) (s : String) : Bool := s.data.contains c

/-- Python `s.strip()`: drop leading and trailing whitespace. -/
def pyStrip (s : String) : String :=
  ⟨((s.data.dropWhile Char.isWhitespace).reverse.dropWhile Char.isWhitespace).reverse⟩

/-- Scanner for Python `s.split(sep)` with a non-empty separator: walk
    the characters left to right; on a separator match emit the piece
    collected so far and skip the separator's characters. -/
def pySplitOnGo (sep : List Char) : List Char → Nat → List Char → List (List Char)
  | [], _, acc => [acc.reverse]
  | _ :: rest, skip+1, acc => pySplitOnGo sep rest skip acc
  | c :: rest, 0, acc =>
      if sep.isPrefixOf (c :: rest) then
        acc.reverse :: pySplitOnGo sep rest (sep.length - 1) []
      else pySplitOnGo sep rest 0 (c :: acc)

/-- Python `s.split(sep)` for a non-empty separator string. -/
def pySplitOn (sep s : String) : List String :=
  (pySplitOnGo sep.data s.data 0 []).map String.mk

/-- Scanner for Python `s.split()` (no separator): whitespace runs
    separate words and contribute no empty pieces. -/
def pyWordsGo : List Char → List Char → List (List Char)
  | [], acc => if acc.isEmpty then [] else [acc.reverse]
  | c :: rest, acc =>
      if c.isWhitespace then
        if acc.isEmpty then pyWordsGo rest [] else acc.reverse :: pyWordsGo rest []
      else pyWordsGo rest (c :: acc)

/-- Python `s.split()` with no separator. -/
def pySplitWs (s : String) : List String := (pyWordsGo s.data []).map String.mk

/-- Python `sep.join(l)`. -/
def pyJoin (sep : String) : List String → String
  | [] => ""
  | h :: t => t.foldl (fun acc x => acc ++ sep ++ x) h

/-- Python `s.endswith(pat)`. -/
def pyEndsWith (s pat : String) : Bool := pat.data.isSuffixOf s.data

/-- Python slicing `s[:n]` for `n ≥ 0`. -/
def pyTake (n : Nat) (s : String) : String := ⟨s.data.take n⟩

/-- The guard `not text or len(text.strip()) == 0` used both by the
    endpoint and by `TextSummarizer.summarize` (true on the empty
    string and on whitespace-only strings). -/
def pyBlank (text : String) : Bool := text.data.isEmpty || (pyStrip text).length == 0

/-- Python `round` to an integer: round half to even. -/
def pyRoundHalfEven (q : ℚ) : ℤ :=
  let n := q.floor
  let frac := q - (n : ℚ)
  if frac < 1/2 then n
  else if 1/2 < frac then n + 1
  else if n % 2 = 0 then n else n + 1

/-- Python `round(q, 2)`, on the exact rational value. -/
def pyRound2 (q : ℚ) : ℚ := (pyRoundHalfEven (q * 100) : ℚ) / 100

/-! ### The summarizer and its external dependencies -/

/-- Outcome of one external LLM call: the provider either returns a
    content string, raises an authentication error, raises a rate-limit
    error, or raises some other exception carrying a message. -/
inductive ApiOutcome where
  | success (content : String)
  | authError
  | rateLimitError
  | otherError (msg : String)
deriving DecidableEq, Repr

/-- The Python exceptions the summarizer code raises or catches:
    `ValueError(msg)`, `openai.error.AuthenticationError`,
    `openai.error.RateLimitError`, and a generic `Exception(msg)`. -/
inductive PyExc where
  | valueError (msg : String)
  | authenticationError
  | rateLimitError
  | exception (msg : String)
deriving DecidableEq, Repr

/-- Python `str(e)` on an exception: the message it carries. The
    authentication / rate-limit constructors never escape `summarize`
    (it converts them first), so their rendering is never observed. -/
def PyExc.str : PyExc → String
  | .valueError m => m
  | .authenticationError => "AuthenticationError"
  | .rateLimitError => "RateLimitError"
  | .exception m => m

/-- The `instruction` local of `TextSummarizer._build_prompt`: the
    `if`/`elif` chain selecting the instruction sentence. -/
def prompt_instruction (summary_type : String) : String :=
  if summary_type = "concise" then
    "Provide a concise summary capturing the main points."
  else if summary_type = "detailed" then
    "Provide a detailed summary including key details and supporting information."
  else if summary_type = "bullet_points" then
    "Provide a summary in bullet point format, highlighting key points."
  else
    "Provide a clear summary."

/-- `TextSummarizer._build_prompt(text, summary_type, max_length)`. -/
def build_prompt (text : String) (summary_type : String) (max_length : Int) : String :=
  let base_prompt :=
    "Please summarize the following text in approximately " ++ toString max_length ++ " words."
  base_prompt ++ "\n" ++ prompt_instruction summary_type
    ++ "\n\nText:\n" ++ text ++ "\n\nSummary:"

/-- `TextSummarizer._format_as_bullets(text)`: return the text
    unchanged when it already contains a bullet or dash character,
    otherwise split on `". "` and emit each non-blank sentence as a
    `"• "`-prefixed line ending in `"."`. -/
def format_as_bullets (text : String) : String :=
  if pyInStr '•' text || pyInStr '-' text then text
  else
    let sentences := pySplitOn ". " text
    let bullets :=
      (sentences.filter (fun sent => !(pyStrip sent).isEmpty)).map
        (fun sent => "• " ++ pyStrip sent ++ (if pyEndsWith sent "." then "" else "."))
    pyJoin "\n" bullets

/-- `TextSummarizer._summarize_short`: build the prompt, make one
    chat-completion call, and `.strip()` the returned content. The call
    itself is the external parameter `api`, applied to the prompt. -/
def summarize_short (api : String → ApiOutcome) (text summary_type : String)
    (max_length : Int) : Except PyExc String :=
  match api (build_prompt text summary_type max_length) with
  | .success content => .ok (pyStrip content)
  | .authError => .error .authenticationError
  | .rateLimitError => .error .rateLimitError
  | .otherError m => .error (.exception m)

/-- `TextSummarizer._summarize_long`: the chunking and map-reduce chain
    are entirely the external library's, modelled as one external call
    `api` on the full text; on success, bullet formatting is applied
    exactly when `summary_type == "bullet_points"`. `max_length` is
    accepted but unused, as in the source. -/
def summarize_long (api : String → ApiOutcome) (text summary_type : String)
    (_max_length : Int) : Except PyExc String :=
  match api text with
  | .success s =>
      .ok (if summary_type = "bullet_points" then format_as_bullets s else s)
  | .authError => .error .authenticationError
  | .rateLimitError => .error .rateLimitError
  | .otherError m => .error (.exception m)

/-- The result dictionary returned by `TextSummarizer.summarize`. -/
structure SummaryResult where
  summary : String
  original_length : Nat
  summary_length : Nat
  compression_ratio : ℚ
  word_count : Nat
deriving DecidableEq, Repr

/-- The `try`/`except` body of `summarize`: on a summary string, build
    the result dictionary; on an exception, apply the three `except`
    clauses in source order (authentication → `ValueError`, rate-limit
    → `ValueError`, anything else → wrapped `Exception`). -/
def finishSummarize (text : String) : Except PyExc String → Except PyExc SummaryResult
  | .ok summary =>
      .ok ⟨summary, text.length, summary.length,
        pyRound2 ((summary.length : ℚ) / (text.length : ℚ)),
        (pySplitWs summary).length⟩
  | .error .authenticationError => .error (.valueError "Invalid OpenAI API key")
  | .error .rateLimitError =>
      .error (.valueError "OpenAI API rate limit exceeded. Please try again later.")
  | .error (.valueError m) => .error (.exception ("Summarization failed: " ++ m))
  | .error (.exception m) => .error (.exception ("Summarization failed: " ++ m))

/-- `TextSummarizer.summarize(text, max_length, summary_type)` with the
    two external calls as parameters: reject blank text, branch on
    `len(text) < 1000` between the short and long paths, then package
    the outcome. -/
def summarize (shortApi longApi : String → ApiOutcome) (text : String)
    (max_length : Int) (summary_type : String) : Except PyExc SummaryResult :=
  if pyBlank text then .error (.valueError "Text cannot be empty")
  else
    finishSummarize text
      (if text.length < 1000 then
        summarize_short shortApi text summary_type max_length
      else
        summarize_long longApi text summary_type max_length)

/-- The external call `summarize` actually performs for a given text:
    one chat-completion call on the built prompt below 1000 characters,
    one chain run on the full text otherwise. -/
def externalOutcome (shortApi longApi : String → ApiOutcome) (text summary_type : String)
    (max_length : Int) : ApiOutcome :=
  if text.length < 1000 then shortApi (build_prompt text summary_type max_length)
  else longApi text

/-! ### The HTTP endpoint -/

/-- The JSON body of a request to `POST /api/v1/summarize`; absent keys
    are `none` and `data.get` supplies the defaults. -/
structure SummarizeRequest where
  text : Option String
  max_length : Option Int
  summary_type : Option String
deriving DecidableEq, Repr

/-- The JSON body of a successful response: `success: true` plus the
    five result fields. -/
structure SuccessBody where
  success : Bool
  summary : String
  original_length : Nat
  summary_length : Nat
  compression_ratio : ℚ
  word_count : Nat
deriving DecidableEq, Repr

/-- A response body: either the success payload or `{'error': msg}`. -/
inductive RespBody where
  | payload (b : SuccessBody)
  | errorMsg (e : String)
deriving DecidableEq, Repr

/-- An HTTP response: status code and JSON body. -/
structure HttpResponse where
  status : Nat
  body : RespBody
deriving DecidableEq, Repr

/-- `data.get('text', '')`. -/
def requestText (req : SummarizeRequest) : String := req.text.getD ""

/-- The `summarize_text` route handler for `POST /api/v1/summarize`:
    blank text → 400 before the summarizer is touched; otherwise run
    `summarize` with the request's (defaulted) parameters; `ValueError`
    → 400 with its message, any other exception → 500 with
    `'Summarization failed: ' + str(e)`. -/
def summarize_text (shortApi longApi : String → ApiOutcome)
    (req : SummarizeRequest) : HttpResponse :=
  let text := requestText req
  if pyBlank text then ⟨400, .errorMsg "Text cannot be empty"⟩
  else
    let max_length := req.max_length.getD 150
    let summary_type := req.summary_type.getD "concise"
    match summarize shortApi longApi text max_length summary_type with
    | .ok r =>
        ⟨200, .payload ⟨true, r.summary, r.original_length, r.summary_length,
          r.compression_ratio, r.word_count⟩⟩
    | .error (.valueError m) => ⟨400, .errorMsg m⟩
    | .error e => ⟨500, .errorMsg ("Summarization failed: " ++ e.str)⟩

/-! ### Batch summarization -/

/-- One entry of the list `batch_summarize` returns on a failed text:
    `{'error': str(e), 'original_text': preview}`. -/
structure BatchError where
  error : String
  original_text : String
deriving DecidableEq, Repr

/-- The preview `text[:100] + '...' if len(text) > 100 else text`. -/
def textPreview (text : String) : String :=
  if text.length > 100 then pyTake 100 text ++ "..." else text

/-- `TextSummarizer.batch_summarize(texts, **kwargs)`: summarize each
    text in order, catching any exception into an error entry, so one
    failure never stops the rest. -/
def batch_summarize (shortApi longApi : String → ApiOutcome) (texts : List String)
    (max_length : Int) (summary_type : String) : List (SummaryResult ⊕ BatchError) :=
  texts.map (fun text =>
    match summarize shortApi longApi text max_length summary_type with
    | .ok r => .inl r
    | .error e => .inr ⟨e.str, textPreview text⟩)

/-- Substring containment, used to state what the prompt contains. -/
def strContains (hay needle : String) : Prop := ∃ a b, hay = a ++ needle ++ b


/-! ### Helper lemmas -/

/-- Membership form of the Python `in` test. -/
lemma pyInStr_iff (c : Char) (s : String) : pyInStr c s = true ↔ c ∈ s.data := by
  simp [pyInStr, List.contains]

/-- A character present in the accumulator survives the fold that joins
    the remaining pieces. -/
lemma mem_data_foldl_append (sep : String) (c : Char) :
    ∀ (t : List String) (acc : String), c ∈ acc.data →
      c ∈ (t.foldl (fun a x => a ++ sep ++ x) acc).data := by
  intro t
  induction t with
  | nil => intro acc h; simpa using h
  | cons x xs ih =>
      intro acc h
      simp only [List.foldl_cons]
      exact ih (acc ++ sep ++ x) (by simp [h])

/-- A character of the head of a joined list occurs in the join. -/
lemma pyInStr_pyJoin_head (sep b : String) (t : List String) (c : Char)
    (hc : c ∈ b.data) : pyInStr c (pyJoin sep (b :: t)) = true := by
  rw [pyInStr_iff]
  exact mem_data_foldl_append sep c t b hc

/-- A non-blank string has positive character count. -/
lemma length_pos_of_not_blank (text : String) (h : pyBlank text = false) :
    0 < text.length := by
  simp only [pyBlank, Bool.or_eq_false_iff] at h
  obtain ⟨h1, -⟩ := h
  cases text with
  | mk data =>
    cases data with
    | nil => simp [List.isEmpty] at h1
    | cons c cs => simp [String.length]

/-- `finishSummarize` never produces the empty-input `ValueError`. -/
lemma finishSummarize_ne_empty (text : String) (r : Except PyExc String) :
    finishSummarize text r ≠ .error (.valueError "Text cannot be empty") := by
  match r with
  | .ok s => simp [finishSummarize]
  | .error (.valueError m) => simp [finishSummarize]
  | .error .authenticationError => simp [finishSummarize]
  | .error .rateLimitError => simp [finishSummarize]
  | .error (.exception m) => simp [finishSummarize]

/-! ### C1: the length-based branch -/

/-- C1. For every non-blank input, `summarize` delegates to the direct
    short-text call exactly when the text has fewer than 1000
    characters and to the chunk-and-combine pipeline otherwise; in the
    short case the result is independent of the long-path dependency,
    and in the long case it is independent of the short-path
    dependency, so nothing but the character length selects the
    branch. -/
theorem summarize_branch_solely_on_length
    (sApi lApi sApi2 lApi2 : String → ApiOutcome) (text : String)
    (max_length : Int) (summary_type : String) (h : pyBlank text = false) :
    (text.length < 1000 →
        summarize sApi lApi text max_length summary_type
          = finishSummarize text (summarize_short sApi text summary_type max_length)
      ∧ summarize sApi lApi text max_length summary_type
          = summarize sApi lApi2 text max_length summary_type)
  ∧ (¬ text.length < 1000 →
        summarize sApi lApi text max_length summary_type
          = finishSummarize text (summarize_long lApi text summary_type max_length)
      ∧ summarize sApi lApi text max_length summary_type
          = summarize sApi2 lApi text max_length summary_type) := by
  constructor <;> intro hlen <;> constructor <;> simp [summarize, h, hlen]

/-- C1 witness at a concrete short text and a concrete pair of
    external behaviours. -/
theorem summarize_branch_solely_on_length_witness :
    summarize (fun _ => ApiOutcome.success "ok") (fun _ => ApiOutcome.success "LONG1")
        "hello" 150 "concise"
      = finishSummarize "hello"
          (summarize_short (fun _ => ApiOutcome.success "ok") "hello" "concise" 150)
  ∧ summarize (fun _ => ApiOutcome.success "ok") (fun _ => ApiOutcome.success "LONG1")
        "hello" 150 "concise"
      = summarize (fun _ => ApiOutcome.success "ok") (fun _ => ApiOutcome.success "LONG2")
        "hello" 150 "concise" :=
  (summarize_branch_solely_on_length (fun _ => ApiOutcome.success "ok")
    (fun _ => ApiOutcome.success "LONG1") (fun _ => ApiOutcome.success "other")
    (fun _ => ApiOutcome.success "LONG2") "hello" 150 "concise" (by decide)).1
    (by decide)

/-! ### C2: empty input is rejected -/

/-- C2. A request whose text is missing, empty, or whitespace-only gets
    an HTTP 400 `'Text cannot be empty'` and the response does not
    depend on the external provider at all (the summarizer is never
    consulted); and `summarize` raises `ValueError('Text cannot be
    empty')` exactly on the blank texts. -/
theorem empty_text_rejected (sApi lApi sApi2 lApi2 : String → ApiOutcome)
    (req : SummarizeRequest) (text : String) (max_length : Int) (summary_type : String) :
    (pyBlank (requestText req) = true →
        summarize_text sApi lApi req = ⟨400, .errorMsg "Text cannot be empty"⟩
      ∧ summarize_text sApi lApi req = summarize_text sApi2 lApi2 req)
  ∧ (summarize sApi lApi text max_length summary_type
        = .error (.valueError "Text cannot be empty") ↔ pyBlank text = true) := by
  refine ⟨fun hb => ⟨?_, ?_⟩, ?_, fun hb => ?_⟩
  · simp [summarize_text, hb]
  · simp [summarize_text, hb]
  · intro he
    by_contra hb
    rw [Bool.not_eq_true] at hb
    rw [summarize, hb] at he
    simp only [Bool.false_eq_true, if_false] at he
    exact finishSummarize_ne_empty text _ he
  · simp [summarize, hb]

/-- C2 witness: a whitespace-only text is rejected by the endpoint
    (under provider behaviours it never consults), and `summarize`
    rejects it too. -/
theorem empty_text_rejected_witness :
    (summarize_text (fun _ => ApiOutcome.success "A") (fun _ => ApiOutcome.success "B")
        ⟨some "   ", none, none⟩
      = ⟨400, .errorMsg "Text cannot be empty"⟩)
  ∧ (summarize (fun _ => ApiOutcome.success "A") (fun _ => ApiOutcome.success "B")
        "   " 150 "concise"
      = .error (.valueError "Text cannot be empty")) :=
  ⟨((empty_text_rejected (fun _ => ApiOutcome.success "A") (fun _ => ApiOutcome.success "B")
      (fun _ => ApiOutcome.authError) (fun _ => ApiOutcome.rateLimitError)
      ⟨some "   ", none, none⟩ "   " 150 "concise").1 (by decide)).1,
   ((empty_text_rejected (fun _ => ApiOutcome.success "A") (fun _ => ApiOutcome.success "B")
      (fun _ => ApiOutcome.authError) (fun _ => ApiOutcome.rateLimitError)
      ⟨some "   ", none, none⟩ "   " 150 "concise").2).mpr (by decide)⟩


/-! ### C3: authentication and rate-limit errors -/

/-- C3. When the external call raises an authentication (resp.
    rate-limit) error, `summarize` re-raises it as a `ValueError` with
    the fixed message, and the endpoint turns that into HTTP 400
    carrying the same message. -/
theorem auth_and_rate_limit_mapped (sApi lApi : String → ApiOutcome)
    (req : SummarizeRequest) (text summary_type : String) (max_length : Int)
    (htext : requestText req = text)
    (hml : req.max_length.getD 150 = max_length)
    (hst : req.summary_type.getD "concise" = summary_type)
    (hb : pyBlank text = false) :
    (externalOutcome sApi lApi text summary_type max_length = .authError →
        summarize sApi lApi text max_length summary_type
          = .error (.valueError "Invalid OpenAI API key")
      ∧ summarize_text sApi lApi req = ⟨400, .errorMsg "Invalid OpenAI API key"⟩)
  ∧ (externalOutcome sApi lApi text summary_type max_length = .rateLimitError →
        summarize sApi lApi text max_length summary_type
          = .error (.valueError "OpenAI API rate limit exceeded. Please try again later.")
      ∧ summarize_text sApi lApi req
          = ⟨400, .errorMsg "OpenAI API rate limit exceeded. Please try again later."⟩) := by
  subst htext hml hst
  refine ⟨fun hout => ?_, fun hout => ?_⟩
  · have h1 : summarize sApi lApi (requestText req) (req.max_length.getD 150)
        (req.summary_type.getD "concise")
        = .error (.valueError "Invalid OpenAI API key") := by
      simp only [externalOutcome] at hout
      by_cases hlen : (requestText req).length < 1000 <;>
        simp only [if_pos, if_neg, hlen, if_true, if_false, ite_true, ite_false] at hout <;>
        simp [summarize, hb, hlen, summarize_short, summarize_long, hout, finishSummarize]
    exact ⟨h1, by simp [summarize_text, hb, h1]⟩
  · have h1 : summarize sApi lApi (requestText req) (req.max_length.getD 150)
        (req.summary_type.getD "concise")
        = .error (.valueError "OpenAI API rate limit exceeded. Please try again later.") := by
      simp only [externalOutcome] at hout
      by_cases hlen : (requestText req).length < 1000 <;>
        simp only [if_pos, if_neg, hlen, if_true, if_false, ite_true, ite_false] at hout <;>
        simp [summarize, hb, hlen, summarize_short, summarize_long, hout, finishSummarize]
    exact ⟨h1, by simp [summarize_text, hb, h1]⟩

/-- C3 witness: both error kinds at a concrete request. -/
theorem auth_and_rate_limit_mapped_witness :
    summarize_text (fun _ => ApiOutcome.authError) (fun _ => ApiOutcome.authError)
        ⟨some "hello", none, none⟩
      = ⟨400, .errorMsg "Invalid OpenAI API key"⟩
  ∧ summarize_text (fun _ => ApiOutcome.rateLimitError) (fun _ => ApiOutcome.rateLimitError)
        ⟨some "hello", none, none⟩
      = ⟨400, .errorMsg "OpenAI API rate limit exceeded. Please try again later."⟩ :=
  ⟨((auth_and_rate_limit_mapped (fun _ => ApiOutcome.authError) (fun _ => ApiOutcome.authError)
      ⟨some "hello", none, none⟩ "hello" "concise" 150 rfl rfl rfl (by decide)).1 rfl).2,
   ((auth_and_rate_limit_mapped (fun _ => ApiOutcome.rateLimitError)
      (fun _ => ApiOutcome.rateLimitError)
      ⟨some "hello", none, none⟩ "hello" "concise" 150 rfl rfl rfl (by decide)).2 rfl).2⟩

/-! ### C4: the catch-all 500 -/

/-- C4 counterexample. For an external failure with message `"boom"`
    the endpoint's 500 body is NOT the original message behind one
    `'Summarization failed: '` marker: the summarizer already wrapped
    the message once and the endpoint wraps the wrapper again. -/
theorem catch_all_single_wrap_counterexample :
    summarize_text (fun _ => ApiOutcome.otherError "boom")
        (fun _ => ApiOutcome.otherError "boom") ⟨some "hello", none, none⟩
      = ⟨500, .errorMsg "Summarization failed: Summarization failed: boom"⟩
  ∧ (HttpResponse.mk 500 (.errorMsg "Summarization failed: Summarization failed: boom")
      ≠ ⟨500, .errorMsg ("Summarization failed: " ++ "boom")⟩) :=
  ⟨rfl, by decide⟩

/-- C4 amended. Any exception other than the empty-input,
    authentication, and rate-limit cases yields HTTP 500, but the
    original message is wrapped twice: once by `summarize`'s own
    catch-all and once more by the endpoint's. -/
theorem catch_all_wraps_message_twice (sApi lApi : String → ApiOutcome)
    (req : SummarizeRequest) (text summary_type : String) (max_length : Int) (m : String)
    (htext : requestText req = text)
    (hml : req.max_length.getD 150 = max_length)
    (hst : req.summary_type.getD "concise" = summary_type)
    (hb : pyBlank text = false)
    (hout : externalOutcome sApi lApi text summary_type max_length = .otherError m) :
    summarize sApi lApi text max_length summary_type
      = .error (.exception ("Summarization failed: " ++ m))
  ∧ summarize_text sApi lApi req
      = ⟨500, .errorMsg ("Summarization failed: " ++ ("Summarization failed: " ++ m))⟩ := by
  subst htext hml hst
  have h1 : summarize sApi lApi (requestText req) (req.max_length.getD 150)
      (req.summary_type.getD "concise")
      = .error (.exception ("Summarization failed: " ++ m)) := by
    simp only [externalOutcome] at hout
    by_cases hlen : (requestText req).length < 1000 <;>
      simp only [if_pos, if_neg, hlen, if_true, if_false, ite_true, ite_false] at hout <;>
      simp [summarize, hb, hlen, summarize_short, summarize_long, hout, finishSummarize]
  exact ⟨h1, by simp [summarize_text, hb, h1, PyExc.str]⟩

/-- C4 witness for the amended statement, at message `"boom"`. -/
theorem catch_all_wraps_message_twice_witness :
    summarize (fun _ => ApiOutcome.otherError "boom") (fun _ => ApiOutcome.otherError "boom")
        "hello" 150 "concise"
      = .error (.exception ("Summarization failed: " ++ "boom"))
  ∧ summarize_text (fun _ => ApiOutcome.otherError "boom")
        (fun _ => ApiOutcome.otherError "boom") ⟨some "hello", none, none⟩
      = ⟨500, .errorMsg ("Summarization failed: " ++ ("Summarization failed: " ++ "boom"))⟩ :=
  catch_all_wraps_message_twice (fun _ => ApiOutcome.otherError "boom")
    (fun _ => ApiOutcome.otherError "boom") ⟨some "hello", none, none⟩
    "hello" "concise" 150 "boom" rfl rfl rfl (by decide) rfl

/-! ### C5: the success payload -/

/-- Destructuring a successful `finishSummarize`: the result fields are
    exactly the lengths, rounded ratio and word count of the summary
    and the original text. -/
lemma finishSummarize_ok_fields (text : String) (e : Except PyExc String)
    (r : SummaryResult) (h : finishSummarize text e = .ok r) :
    e = .ok r.summary
  ∧ r.original_length = text.length
  ∧ r.summary_length = r.summary.length
  ∧ r.compression_ratio = pyRound2 ((r.summary.length : ℚ) / (text.length : ℚ))
  ∧ r.word_count = (pySplitWs r.summary).length := by
  match e with
  | .ok s =>
      simp only [finishSummarize, Except.ok.injEq] at h
      subst h
      exact ⟨rfl, rfl, rfl, rfl, rfl⟩
  | .error (.valueError m) => simp [finishSummarize] at h
  | .error .authenticationError => simp [finishSummarize] at h
  | .error .rateLimitError => simp [finishSummarize] at h
  | .error (.exception m) => simp [finishSummarize] at h

/-- C5. Every successful summarization result records the character
    count of the input as `original_length`, the character count and
    whitespace-separated word count of the summary as `summary_length`
    and `word_count`, and the endpoint answers 200 with `success=true`
    plus exactly the five result fields. -/
theorem success_response_fields (sApi lApi : String → ApiOutcome)
    (req : SummarizeRequest) (r : SummaryResult)
    (h : summarize sApi lApi (requestText req) (req.max_length.getD 150)
          (req.summary_type.getD "concise") = .ok r) :
    r.original_length = (requestText req).length
  ∧ r.summary_length = r.summary.length
  ∧ r.word_count = (pySplitWs r.summary).length
  ∧ summarize_text sApi lApi req
      = ⟨200, .payload ⟨true, r.summary, r.original_length, r.summary_length,
          r.compression_ratio, r.word_count⟩⟩ := by
  have hb : pyBlank (requestText req) = false := by
    by_contra hb
    rw [Bool.not_eq_false] at hb
    rw [summarize, hb] at h
    simp at h
  have h' := h
  simp only [summarize, hb, Bool.false_eq_true, if_false] at h'
  obtain ⟨-, h1, h2, -, h4⟩ := finishSummarize_ok_fields _ _ _ h'
  exact ⟨h1, h2, h4, by simp [summarize_text, hb, h]⟩

/-- C5 witness at a concrete request and provider answer. -/
theorem success_response_fields_witness :
    summarize_text (fun _ => ApiOutcome.success " Sum. ") (fun _ => ApiOutcome.success "L")
        ⟨some "hi there", none, none⟩
      = ⟨200, .payload ⟨true, "Sum.", 8, 4,
          pyRound2 (((4:ℕ) : ℚ) / ((8:ℕ) : ℚ)), 1⟩⟩ :=
  (success_response_fields (fun _ => ApiOutcome.success " Sum. ")
    (fun _ => ApiOutcome.success "L") ⟨some "hi there", none, none⟩
    ⟨"Sum.", 8, 4, pyRound2 (((4:ℕ) : ℚ) / ((8:ℕ) : ℚ)), 1⟩ rfl).2.2.2


/-! ### C6: the compression ratio -/

/-- C6. Every successful result's `compression_ratio` is the summary
    length over the original length, rounded to two decimals; the
    original length is strictly positive because blank input was
    rejected, so the division is well-defined. -/
theorem compression_ratio_rounded (sApi lApi : String → ApiOutcome)
    (text : String) (max_length : Int) (summary_type : String) (r : SummaryResult)
    (h : summarize sApi lApi text max_length summary_type = .ok r) :
    0 < r.original_length
  ∧ r.compression_ratio
      = pyRound2 ((r.summary_length : ℚ) / (r.original_length : ℚ)) := by
  have hb : pyBlank text = false := by
    by_contra hb
    rw [Bool.not_eq_false] at hb
    rw [summarize, hb] at h
    simp at h
  have h' := h
  simp only [summarize, hb, Bool.false_eq_true, if_false] at h'
  obtain ⟨-, h1, h2, h3, -⟩ := finishSummarize_ok_fields _ _ _ h'
  constructor
  · rw [h1]
    exact length_pos_of_not_blank text hb
  · rw [h2, h1]
    exact h3

/-- C6 witness at a six-character text summarized to two characters. -/
theorem compression_ratio_rounded_witness :
    0 < 6
  ∧ pyRound2 (((2:ℕ) : ℚ) / ((6:ℕ) : ℚ)) = pyRound2 (((2:ℕ) : ℚ) / ((6:ℕ) : ℚ)) :=
  compression_ratio_rounded (fun _ => ApiOutcome.success "ab")
    (fun _ => ApiOutcome.success "L") "abcdef" 150 "concise"
    ⟨"ab", 6, 2, pyRound2 (((2:ℕ) : ℚ) / ((6:ℕ) : ℚ)), 1⟩ rfl

/-! ### C7: bullet formatting -/

/-- C7 counterexample. `"-"` is a non-empty string whose
    `_format_as_bullets` image contains no `'•'`: the dash guard
    returns it unchanged. -/
theorem format_as_bullets_bullet_counterexample :
    ("-" : String) ≠ "" ∧ format_as_bullets "-" = "-"
  ∧ pyInStr '•' (format_as_bullets "-") = false :=
  ⟨by decide, rfl, by decide⟩

/-- C7 amended. Strings already containing `'•'` or `'-'` pass through
    unchanged; any other string is rewritten to the `"• "`-prefixed
    non-blank `". "`-sentences, and the rewritten form contains `'•'`
    unless every sentence was blank (then it is empty); in the
    long-text path this formatting is applied exactly when the summary
    type is `"bullet_points"`. -/
theorem format_as_bullets_amended (s : String) (longApi : String → ApiOutcome)
    (text summary_type : String) (max_length : Int) (content : String) :
    ((pyInStr '•' s || pyInStr '-' s) = true → format_as_bullets s = s)
  ∧ ((pyInStr '•' s || pyInStr '-' s) = false →
        format_as_bullets s
          = pyJoin "\n"
              (((pySplitOn ". " s).filter (fun sent => !(pyStrip sent).isEmpty)).map
                (fun sent => "• " ++ pyStrip sent
                  ++ (if pyEndsWith sent "." then "" else ".")))
      ∧ (format_as_bullets s = "" ∨ pyInStr '•' (format_as_bullets s) = true))
  ∧ (longApi text = .success content →
        summarize_long longApi text summary_type max_length
          = .ok (if summary_type = "bullet_points" then format_as_bullets content
                 else content)) := by
  refine ⟨fun h => ?_, fun h => ⟨?_, ?_⟩, fun h => ?_⟩
  · simp [format_as_bullets, h]
  · simp [format_as_bullets, h]
  · cases hl : (pySplitOn ". " s).filter (fun sent => !(pyStrip sent).isEmpty) with
    | nil =>
        left
        simp [format_as_bullets, h, hl, pyJoin]
    | cons sent rest =>
        right
        have hfb : format_as_bullets s
            = pyJoin "\n" ((sent :: rest).map
                (fun sent => "• " ++ pyStrip sent
                  ++ (if pyEndsWith sent "." then "" else "."))) := by
          simp [format_as_bullets, h, hl]
        rw [hfb]
        simp only [List.map_cons]
        apply pyInStr_pyJoin_head
        simp only [String.data_append, List.mem_append]
        exact Or.inl (Or.inl (by decide))
  · simp [summarize_long, h]

/-- C7 witness: the pass-through case, the rewriting case, and the
    long-path application at `"bullet_points"`. -/
theorem format_as_bullets_amended_witness :
    format_as_bullets "• done" = "• done"
  ∧ pyInStr '•' (format_as_bullets "First point. Second point") = true
  ∧ summarize_long (fun _ => ApiOutcome.success "A. B") "x" "bullet_points" 150
      = .ok (format_as_bullets "A. B") :=
  ⟨(format_as_bullets_amended "• done" (fun _ => ApiOutcome.success "A. B")
      "x" "bullet_points" 150 "A. B").1 (by decide),
   (((format_as_bullets_amended "First point. Second point"
      (fun _ => ApiOutcome.success "A. B") "x" "bullet_points" 150 "A. B").2.1
      (by decide)).2).resolve_left (by decide),
   by
    have := (format_as_bullets_amended "• done" (fun _ => ApiOutcome.success "A. B")
      "x" "bullet_points" 150 "A. B").2.2 rfl
    simpa using this⟩

/-! ### C8: what the prompt contains -/

/-- C8. The prompt always contains the decimal rendering of
    `max_length` and the full input text, and contains the instruction
    sentence selected by the summary type, with the generic sentence
    for unknown types. -/
theorem build_prompt_contents (text summary_type : String) (max_length : Int) :
    strContains (build_prompt text summary_type max_length) (toString max_length)
  ∧ strContains (build_prompt text summary_type max_length) text
  ∧ (summary_type = "concise" →
      strContains (build_prompt text summary_type max_length)
        "Provide a concise summary capturing the main points.")
  ∧ (summary_type = "detailed" →
      strContains (build_prompt text summary_type max_length)
        "Provide a detailed summary including key details and supporting information.")
  ∧ (summary_type = "bullet_points" →
      strContains (build_prompt text summary_type max_length)
        "Provide a summary in bullet point format, highlighting key points.")
  ∧ (summary_type ≠ "concise" → summary_type ≠ "detailed" →
      summary_type ≠ "bullet_points" →
      strContains (build_prompt text summary_type max_length)
        "Provide a clear summary.") := by
  refine ⟨?_, ?_, fun h => ?_, fun h => ?_, fun h => ?_, fun h1 h2 h3 => ?_⟩
  · exact ⟨"Please summarize the following text in approximately ",
      " words." ++ "\n" ++ prompt_instruction summary_type
        ++ "\n\nText:\n" ++ text ++ "\n\nSummary:",
      by simp [build_prompt, String.append_assoc]⟩
  · exact ⟨"Please summarize the following text in approximately "
        ++ toString max_length ++ " words." ++ "\n"
        ++ prompt_instruction summary_type ++ "\n\nText:\n",
      "\n\nSummary:",
      by simp [build_prompt, String.append_assoc]⟩
  · subst h
    exact ⟨"Please summarize the following text in approximately "
        ++ toString max_length ++ " words." ++ "\n",
      "\n\nText:\n" ++ text ++ "\n\nSummary:",
      by
        simp [build_prompt, prompt_instruction, String.append_assoc]
        congr 1⟩
  · subst h
    exact ⟨"Please summarize the following text in approximately "
        ++ toString max_length ++ " words." ++ "\n",
      "\n\nText:\n" ++ text ++ "\n\nSummary:",
      by
        simp [build_prompt, prompt_instruction, String.append_assoc]
        congr 1⟩
  · subst h
    exact ⟨"Please summarize the following text in approximately "
        ++ toString max_length ++ " words." ++ "\n",
      "\n\nText:\n" ++ text ++ "\n\nSummary:",
      by
        simp [build_prompt, prompt_instruction, String.append_assoc]
        congr 1⟩
  · have hi : prompt_instruction summary_type = "Provide a clear summary." := by
      simp only [prompt_instruction]
      rw [if_neg h1, if_neg h2, if_neg h3]
    exact ⟨"Please summarize the following text in approximately "
        ++ toString max_length ++ " words." ++ "\n",
      "\n\nText:\n" ++ text ++ "\n\nSummary:",
      by
        simp [build_prompt, hi, String.append_assoc]
        congr 1⟩

/-- C8 witness: a known type and an unknown type at concrete inputs. -/
theorem build_prompt_contents_witness :
    strContains (build_prompt "T" "concise" 150) (toString (150 : Int))
  ∧ strContains (build_prompt "T" "concise" 150) "T"
  ∧ strContains (build_prompt "T" "concise" 150)
      "Provide a concise summary capturing the main points."
  ∧ strContains (build_prompt "T" "custom" 150) "Provide a clear summary." :=
  ⟨(build_prompt_contents "T" "concise" 150).1,
   (build_prompt_contents "T" "concise" 150).2.1,
   (build_prompt_contents "T" "concise" 150).2.2.1 rfl,
   (build_prompt_contents "T" "custom" 150).2.2.2.2.2
     (by decide) (by decide) (by decide)⟩


/-! ### C9: bullet formatting is idempotent -/

/-- A string already holding a bullet or dash character passes through
    `format_as_bullets` unchanged. -/
lemma format_as_bullets_of_contains (t : String)
    (h : (pyInStr '•' t || pyInStr '-' t) = true) : format_as_bullets t = t := by
  simp [format_as_bullets, h]

/-- C9. `_format_as_bullets` is idempotent on every string: a rewritten
    non-trivial output contains `'•'` and so passes through unchanged,
    a rewritten blank output is the empty string which maps to itself,
    and guarded strings were unchanged in the first place. -/
theorem format_as_bullets_idempotent (s : String) :
    format_as_bullets (format_as_bullets s) = format_as_bullets s := by
  by_cases h : (pyInStr '•' s || pyInStr '-' s) = true
  · rw [format_as_bullets_of_contains s h, format_as_bullets_of_contains s h]
  · rw [Bool.not_eq_true] at h
    cases hl : (pySplitOn ". " s).filter (fun sent => !(pyStrip sent).isEmpty) with
    | nil =>
        have hs : format_as_bullets s = "" := by
          simp [format_as_bullets, h, hl, pyJoin]
        rw [hs]
        decide
    | cons sent rest =>
        have hs : format_as_bullets s
            = pyJoin "\n" ((sent :: rest).map
                (fun sent => "• " ++ pyStrip sent
                  ++ (if pyEndsWith sent "." then "" else "."))) := by
          simp [format_as_bullets, h, hl]
        have hbul : pyInStr '•' (format_as_bullets s) = true := by
          rw [hs]
          simp only [List.map_cons]
          apply pyInStr_pyJoin_head
          simp only [String.data_append, List.mem_append]
          exact Or.inl (Or.inl (by decide))
        exact format_as_bullets_of_contains _ (by simp [hbul])

/-! ### C10: batch summarization -/

/-- C10. `batch_summarize` keeps length and order: entry `i` is the
    `summarize` result for text `i` on success, and on failure the
    error message with a 100-character preview of the text; each entry
    depends only on its own text, so one failure cannot affect the
    others. -/
theorem batch_summarize_spec (sApi lApi : String → ApiOutcome) (texts : List String)
    (max_length : Int) (summary_type : String) :
    (batch_summarize sApi lApi texts max_length summary_type).length = texts.length
  ∧ (∀ (i : Nat) (text : String) (r : SummaryResult), texts[i]? = some text →
      summarize sApi lApi text max_length summary_type = .ok r →
      (batch_summarize sApi lApi texts max_length summary_type)[i]? = some (Sum.inl r))
  ∧ (∀ (i : Nat) (text : String) (e : PyExc), texts[i]? = some text →
      summarize sApi lApi text max_length summary_type = .error e →
      (batch_summarize sApi lApi texts max_length summary_type)[i]?
        = some (Sum.inr ⟨PyExc.str e, textPreview text⟩))
  ∧ (∀ (texts2 : List String) (i : Nat) (text : String),
      texts[i]? = some text → texts2[i]? = some text →
      (batch_summarize sApi lApi texts max_length summary_type)[i]?
        = (batch_summarize sApi lApi texts2 max_length summary_type)[i]?) := by
  refine ⟨?_, fun i text r h1 h2 => ?_, fun i text e h1 h2 => ?_,
    fun texts2 i text h1 h2 => ?_⟩
  · simp [batch_summarize]
  · simp [batch_summarize, h1, h2]
  · simp [batch_summarize, h1, h2]
  · simp [batch_summarize, h1, h2]

/-- C10 witness: a blank first text fails with an error entry while the
    second text still gets summarized. -/
theorem batch_summarize_spec_witness :
    (batch_summarize (fun _ => ApiOutcome.success "ok") (fun _ => ApiOutcome.success "L")
        ["", "hello"] 150 "concise").length = 2
  ∧ (batch_summarize (fun _ => ApiOutcome.success "ok") (fun _ => ApiOutcome.success "L")
        ["", "hello"] 150 "concise")[0]?
      = some (Sum.inr ⟨"Text cannot be empty", ""⟩)
  ∧ (batch_summarize (fun _ => ApiOutcome.success "ok") (fun _ => ApiOutcome.success "L")
        ["", "hello"] 150 "concise")[1]?
      = some (Sum.inl ⟨"ok", 5, 2, pyRound2 (((2:ℕ) : ℚ) / ((5:ℕ) : ℚ)), 1⟩) :=
  ⟨(batch_summarize_spec (fun _ => ApiOutcome.success "ok")
      (fun _ => ApiOutcome.success "L") ["", "hello"] 150 "concise").1,
   (batch_summarize_spec (fun _ => ApiOutcome.success "ok")
      (fun _ => ApiOutcome.success "L") ["", "hello"] 150 "concise").2.2.1
     0 "" (.valueError "Text cannot be empty") rfl rfl,
   (batch_summarize_spec (fun _ => ApiOutcome.success "ok")
      (fun _ => ApiOutcome.success "L") ["", "hello"] 150 "concise").2.1
     1 "hello" ⟨"ok", 5, 2, pyRound2 (((2:ℕ) : ℚ) / ((5:ℕ) : ℚ)), 1⟩ rfl rfl⟩

end StudyCompanion
